import Mathlib

/-!
Verification of the vocabudaily word-of-the-day core: the WordStore /
WordFetcher state machine implemented by the WordProvider component, the
HomeScreen mount effect, and the NotificationScheduler implemented in
notifications.js. Each definition is a shallow embedding of the
corresponding JavaScript source.
-/

/-! ### Data model: the parsed word-of-the-day payload

Shape of the JSON body the upstream API returns and the code stores
verbatim via setWordData (the code performs no validation, so every
field is optional in the embedding; the display layer supplies
placeholders). -/

/-- One entry of the definitions array: text plus optional source. -/
structure WordDefEntry where
  text : String
  source : Option String
deriving DecidableEq, Repr

/-- One entry of the examples array: text plus optional title and url. -/
structure WordExample where
  text : String
  title : Option String
  url : Option String
deriving DecidableEq, Repr

/-- The parsed word-of-the-day record as the display code reads it:
word may be absent or empty (the render falls back to a placeholder). -/
structure WordRecord where
  word : Option String
  definitions : List WordDefEntry
  examples : List WordExample
  note : Option String
deriving DecidableEq, Repr

/-! ### WordStore state (WordProvider, src/unnamed/part_002 lines 446-478)

The provider holds three useState cells: wordData (initially null),
loading (initially true) and error (initially null). -/

/-- The three state cells of the WordProvider. -/
structure StoreState where
  wordData : Option WordRecord
  loading : Bool
  error : Option String
deriving DecidableEq, Repr

/-- The initial provider state: useState(null), useState(true), useState(null). -/
def initialStoreState : StoreState :=
  { wordData := none, loading := true, error := none }

/-- Start of fetchWord (lines 452-453): setLoading(true); setError(null).
wordData is untouched. -/
def fetchWordStart (s : StoreState) : StoreState :=
  { s with loading := true, error := none }

/-- Completion of fetchWord (lines 454-464): on success setWordData(data),
on caught error setError(message); finally setLoading(false). The branch
not taken leaves its cell untouched. -/
def fetchWordDone (s : StoreState) : Except String WordRecord → StoreState
  | Except.ok data => { s with wordData := some data, loading := false }
  | Except.error msg => { s with error := some msg, loading := false }

/-! ### WordFetcher outcome classification (lines 455-457)

fetch resolves with a response carrying a status, or rejects at the
transport level; response.ok is the fetch-API predicate 200 <= status < 300;
on a non-ok response the code throws before reading the body; on an ok
response the body either parses to a record or json() rejects. -/

/-- Result of the network round trip: an HTTP response whose body parse
either yields a record or fails, or a transport-level failure. -/
inductive FetchResult
  | response (status : Nat) (body : Except String WordRecord)
  | networkFailure (msg : String)
deriving Repr

/-- The fetch-API response.ok predicate: status in the 2xx range. -/
def respOk (status : Nat) : Bool :=
  200 ≤ status && status < 300

/-- The error message thrown on a non-ok response (line 456). -/
def httpErrorMessage (status : Nat) : String :=
  "HTTP error! Status: " ++ toString status

/-- What the try block of fetchWord produces: the caught error message or
the parsed record. Non-ok responses throw before the body is read. -/
def fetchOutcome : FetchResult → Except String WordRecord
  | FetchResult.networkFailure msg => Except.error msg
  | FetchResult.response status body =>
      if respOk status then body else Except.error (httpErrorMessage status)

/-- One complete fetch cycle: fetchWord starts, the network settles with
res, and the completion continuation runs. -/
def fetchCycle (s : StoreState) (res : FetchResult) : StoreState :=
  fetchWordDone (fetchWordStart s) (fetchOutcome res)

/-! ### Observable state (the render chain, lines 517-598)

The render distinguishes exactly: loading -> spinner; else error ->
failure view; else wordData -> success view; else the no-data text. -/

/-- The FetchState tagged variant of the spec. -/
inductive FetchState
  | idle
  | loading
  | success (r : WordRecord)
  | failure (msg : String)
deriving DecidableEq, Repr

/-- currentState: the variant the render chain selects from the three
cells, in the order the source tests them. -/
def currentState (s : StoreState) : FetchState :=
  if s.loading then FetchState.loading
  else
    match s.error with
    | some msg => FetchState.failure msg
    | none =>
        match s.wordData with
        | some r => FetchState.success r
        | none => FetchState.idle

/-- The render shows the loading spinner (line 517). -/
def showsLoading (s : StoreState) : Bool := s.loading

/-- The render shows the error view (line 518): not loading and error set. -/
def showsError (s : StoreState) : Bool := !s.loading && s.error.isSome

/-- The render shows the word view (line 531): not loading, no error,
wordData present. -/
def showsSuccess (s : StoreState) : Bool :=
  !s.loading && s.error.isNone && s.wordData.isSome

/-- The render shows the no-data text (line 597): not loading, no error,
no wordData. -/
def showsIdle (s : StoreState) : Bool :=
  !s.loading && s.error.isNone && s.wordData.isNone

/-- How many of the four mutually exclusive views the render would show. -/
def viewCount (s : StoreState) : Nat :=
  (showsLoading s).toNat + (showsError s).toNat
    + (showsSuccess s).toNat + (showsIdle s).toNat

/-! ### Store event sequences -/

/-- An event the store reacts to: a refetch call starting fetchWord, or
the settling of an in-flight fetch. -/
inductive StoreEvent
  | refetch
  | complete (res : FetchResult)
deriving Repr

/-- One store transition. -/
def storeStep (s : StoreState) : StoreEvent → StoreState
  | StoreEvent.refetch => fetchWordStart s
  | StoreEvent.complete res => fetchWordDone s (fetchOutcome res)

/-- Run a sequence of store events. -/
def runStore (s : StoreState) (es : List StoreEvent) : StoreState :=
  es.foldl storeStep s

/-! ### Display fallback (line 535)

The word text rendered: wordData.word with the JavaScript falsy fallback,
so an absent or empty word renders the placeholder. -/

/-- The string rendered for the word, with the placeholder fallback. -/
def displayWord (r : WordRecord) : String :=
  match r.word with
  | some w => if w = "" then "No word available" else w
  | none => "No word available"

/-! ### Mount effects (lines 467-471 and 489-501)

The WordProvider effect fetches only when wordData is null; the
HomeScreen effect calls fetchWord() unconditionally (and separately arms
notifications). Each effect is modelled as the store transformer it
applies together with the number of automatic fetches it starts. -/

/-- WordProvider useEffect (lines 467-471): if (!wordData) fetchWord(). -/
def providerMountEffect (s : StoreState) : StoreState × Nat :=
  if s.wordData.isNone then (fetchWordStart s, 1) else (s, 0)

/-- HomeScreen useEffect (lines 489-501): fetchWord() with no guard. -/
def homeScreenMountEffect (s : StoreState) : StoreState × Nat :=
  (fetchWordStart s, 1)

/-- A fresh mount of the exported screen runs the HomeScreen effect and
the WordProvider effect (child effect first, then the provider; both
close over the pre-render state). -/
def fullMountEffect (s : StoreState) : StoreState × Nat :=
  let p1 := homeScreenMountEffect s
  let p2 := providerMountEffect p1.1
  (p2.1, p1.2 + p2.2)

/-- A concrete record used at concrete evaluation points. -/
def rLucid : WordRecord :=
  { word := some "lucid"
    definitions := [{ text := "clear", source := some "Dict" }]
    examples := []
    note := none }

/-- A store state holding a previously fetched record, neither loading
nor in error. -/
def sHeld : StoreState :=
  { wordData := some rLucid, loading := false, error := none }

/-! ### NotificationScheduler (src/notifications.js)

The scheduler state is the OS-side list of scheduled notification
requests, the fixed permission answer of the environment, the console
log, and a trace of the OS calls issued (one entry per awaited call, in
program order). -/

/-- The fixed content both scheduling variants pass (title, body, sound). -/
structure NotifContent where
  title : String
  body : String
  sound : Bool
deriving DecidableEq, Repr

/-- A trigger input as the two source variants build it: the first
variant passes a DAILY-type trigger with hour and minute; the second
passes a calendar-style object with hour, minute and repeats. -/
inductive NotifTrigger
  | daily (hour minute : Nat)
  | calendar (hour minute : Nat) (repeats : Bool)
deriving DecidableEq, Repr

/-- When a trigger fires repeatedly: some (hour, minute) when it repeats
every day at that local time, none when it is one-shot. A DAILY-type
trigger repeats by definition of its type. -/
def NotifTrigger.firesDailyAt : NotifTrigger → Option (Nat × Nat)
  | NotifTrigger.daily h m => some (h, m)
  | NotifTrigger.calendar h m r => if r then some (h, m) else none

/-- A scheduled notification request: content plus trigger. -/
structure NotifRequest where
  content : NotifContent
  trigger : NotifTrigger
deriving DecidableEq, Repr

/-- One awaited call across the OS boundary. -/
inductive NotifOp
  | requestPermission
  | cancelAll
  | schedule (req : NotifRequest)
deriving DecidableEq, Repr

/-- The world the scheduler acts on: the permission answer the OS gives,
the OS list of scheduled requests, the console log, and the call trace. -/
structure NotifWorld where
  granted : Bool
  scheduled : List NotifRequest
  log : List String
  ops : List NotifOp
deriving DecidableEq, Repr

/-- The warning printed when permission is not granted (line 17). -/
def permissionWarning : String := "Notification permissions not granted."

/-- requestNotificationPermissions (lines 14-19): await the OS permission
request; when the status is not granted, console.warn and return
normally. Nothing is thrown and the schedule is untouched. -/
def requestNotificationPermissions (w : NotifWorld) : NotifWorld :=
  let w1 := { w with ops := w.ops ++ [NotifOp.requestPermission] }
  if w1.granted then w1
  else { w1 with log := w1.log ++ [permissionWarning] }

/-- cancelScheduledNotifications (lines 22-24): await
cancelAllScheduledNotificationsAsync, emptying the OS schedule list. -/
def cancelScheduledNotifications (w : NotifWorld) : NotifWorld :=
  { w with scheduled := [], ops := w.ops ++ [NotifOp.cancelAll] }

/-- scheduleNotificationAsync: the OS appends the request. -/
def scheduleNotificationAsync (req : NotifRequest) (w : NotifWorld) : NotifWorld :=
  { w with scheduled := w.scheduled ++ [req]
           ops := w.ops ++ [NotifOp.schedule req] }

/-- The request built by the first scheduleDailyNotification variant
(lines 29-41): constant content, DAILY trigger at 9:00. -/
def dailyRequest : NotifRequest :=
  { content := { title := "Word of the Day 📖"
                 body := "Tap to learn your new word!"
                 sound := true }
    trigger := NotifTrigger.daily 9 0 }

/-- The request built by the second scheduleDailyNotification variant:
the same constant content, calendar trigger hour 9 minute 0 repeats true. -/
def dailyRequestV2 : NotifRequest :=
  { content := { title := "Word of the Day 📖"
                 body := "Tap to learn your new word!"
                 sound := true }
    trigger := NotifTrigger.calendar 9 0 true }

/-- scheduleDailyNotification, first variant (lines 27-42): await the
cancel, then await scheduling the single daily request. -/
def scheduleDailyNotification (w : NotifWorld) : NotifWorld :=
  scheduleNotificationAsync dailyRequest (cancelScheduledNotifications w)

/-- Milliseconds of the local day at 9:00 AM. -/
def nineAMms : Nat := 9 * 60 * 60 * 1000

/-- The localTime computation of the second variant: new Date() set to
9:00:00.000 today, advanced one day when that instant is not after now.
Time is (day index, millisecond of day). -/
def nextNineAM (day msOfDay : Nat) : Nat × Nat :=
  if nineAMms ≤ msOfDay then (day + 1, nineAMms) else (day, nineAMms)

/-- scheduleDailyNotification, second variant: await the cancel, compute
localTime from the current instant, then await scheduling. The computed
localTime is not part of the request the source passes to
scheduleNotificationAsync. -/
def scheduleDailyNotificationV2 (day msOfDay : Nat) (w : NotifWorld) : NotifWorld :=
  let w1 := cancelScheduledNotifications w
  let _localTime := nextNineAM day msOfDay
  scheduleNotificationAsync dailyRequestV2 w1

/-- arm: the HomeScreen effect body (part_002 lines 495-498): await
requestNotificationPermissions(), then await scheduleDailyNotification(). -/
def arm (w : NotifWorld) : NotifWorld :=
  scheduleDailyNotification (requestNotificationPermissions w)

/-- arm applied n times in sequence. -/
def armIter : Nat → NotifWorld → NotifWorld
  | 0, w => w
  | n + 1, w => armIter n (arm w)

/-- A concrete world for evaluation: permission granted, one stale
request already scheduled. -/
def wStale : NotifWorld :=
  { granted := true, scheduled := [dailyRequestV2], log := [], ops := [] }

/-! ### Unmount and the abort controller (part_002 lines 489-501)

The HomeScreen effect constructs one AbortController and its cleanup
calls controller.abort(); the fetch call inside fetchWord passes no
signal, so the completion continuation is a function of the store state
and the network result only. -/

/-- The abort controller: only its aborted flag. -/
structure AbortCtrl where
  aborted : Bool
deriving DecidableEq, Repr

/-- The controller as constructed in the mount effect. -/
def newAbortCtrl : AbortCtrl := { aborted := false }

/-- controller.abort(). -/
def abortCtrl (c : AbortCtrl) : AbortCtrl := { c with aborted := true }

/-- A mounted screen: the store plus the effect-scoped controller. -/
structure MountedScreen where
  store : StoreState
  controller : AbortCtrl
deriving DecidableEq, Repr

/-- Mounting the screen: the effect creates the controller and starts
fetchWord. -/
def mountScreen (s : StoreState) : MountedScreen :=
  { store := fetchWordStart s, controller := newAbortCtrl }

/-- Unmounting: the cleanup returned by the effect aborts the controller.
The in-flight fetch is not passed the controller, so nothing else changes. -/
def unmountScreen (ms : MountedScreen) : MountedScreen :=
  { ms with controller := abortCtrl ms.controller }

/-- The in-flight fetch settles after (possibly) an unmount: the
completion continuation writes into the store without consulting the
controller, exactly as the source fetch call takes no signal argument. -/
def settleFetch (ms : MountedScreen) (res : FetchResult) : MountedScreen :=
  { ms with store := fetchWordDone ms.store (fetchOutcome res) }

/-- The HomeScreen mount effect together with the notification arming it
performs: the store part and the notification part act on disjoint state. -/
def homeScreenMountCombined (s : StoreState) (w : NotifWorld) :
    (StoreState × Nat) × NotifWorld :=
  (homeScreenMountEffect s, arm w)

/-- A concrete world whose permission answer is a denial. -/
def wDenied : NotifWorld :=
  { granted := false, scheduled := [], log := [], ops := [] }

/-! ### Theorems -/

/-- Helper: the render chain always selects exactly one of the four views. -/
theorem viewCount_eq_one (s : StoreState) : viewCount s = 1 := by
  rcases s with ⟨wd, l, e⟩
  cases l <;> cases e <;> cases wd <;>
    simp [viewCount, showsLoading, showsError, showsSuccess, showsIdle]

/-- C1: after every sequence of refetch calls and fetch completions the
observable state is exactly one of the four FetchState variants (the
render chain selects exactly one view), and the transition to Loading
makes the state observably Loading, replacing any prior Success or
Failure payload. -/
theorem wordStore_exactly_one_variant (es : List StoreEvent) :
    viewCount (runStore initialStoreState es) = 1 ∧
    currentState (fetchWordStart (runStore initialStoreState es))
      = FetchState.loading :=
  ⟨viewCount_eq_one _, rfl⟩

/-- C2 counterexample: on a fresh mount of the exported screen two
automatic fetches fire, not at most one; and with a Success record
already held the mount effects still fire one automatic fetch, not
zero, because the HomeScreen effect calls fetchWord unconditionally. -/
theorem mount_fetch_guard_counterexample :
    (fullMountEffect initialStoreState).2 = 2 ∧
    currentState sHeld = FetchState.success rLucid ∧
    (fullMountEffect sHeld).2 = 1 :=
  ⟨rfl, rfl, rfl⟩

/-- C2 amended: only the WordProvider mount effect honors the guard,
fetching exactly when wordData is null; the HomeScreen mount effect
always fetches, so a fresh mount fires two automatic fetches when no
record is held and still one when a Success record is held. -/
theorem mount_fetch_guard_amended (s : StoreState) :
    (fullMountEffect s).2 = (if s.wordData.isNone then 2 else 1) ∧
    (providerMountEffect s).2 = (if s.wordData.isNone then 1 else 0) ∧
    (homeScreenMountEffect s).2 = 1 := by
  rcases s with ⟨wd, l, e⟩
  cases wd <;>
    simp [fullMountEffect, providerMountEffect, homeScreenMountEffect,
      fetchWordStart]

/-- C3: arming n times in sequence, for every n at least 1, leaves
exactly the single daily request scheduled, because each arm cancels
all existing requests and installs exactly one. -/
theorem armN_exactly_one (w : NotifWorld) (n : Nat) (h : 1 ≤ n) :
    (armIter n w).scheduled = [dailyRequest] := by
  cases n with
  | zero => exact absurd h (by decide)
  | succ m =>
    clear h
    induction m generalizing w with
    | zero => rfl
    | succ k ih => exact ih (arm w)

/-- C3 witness at n equal 3 and a world with a stale schedule. -/
theorem armN_exactly_one_witness :
    1 ≤ 3 ∧ (armIter 3 wStale).scheduled = [dailyRequest] :=
  ⟨by decide, armN_exactly_one wStale 3 (by decide)⟩

/-- C4: a response with a non-success status ends the fetch cycle with
the error set to a message carrying the status code, loading cleared,
no record produced (wordData unchanged), and an observable Failure. -/
theorem http_error_yields_failure (s : StoreState) (status : Nat)
    (body : Except String WordRecord) (h : respOk status = false) :
    (fetchCycle s (FetchResult.response status body)).error
        = some (httpErrorMessage status) ∧
    (fetchCycle s (FetchResult.response status body)).loading = false ∧
    (fetchCycle s (FetchResult.response status body)).wordData = s.wordData ∧
    currentState (fetchCycle s (FetchResult.response status body))
        = FetchState.failure (httpErrorMessage status) ∧
    ∃ p q, httpErrorMessage status = p ++ toString status ++ q := by
  have hout : fetchOutcome (FetchResult.response status body)
      = Except.error (httpErrorMessage status) := by
    simp [fetchOutcome, h]
  refine ⟨?_, ?_, ?_, ?_, "HTTP error! Status: ", "", ?_⟩ <;>
    simp [fetchCycle, hout, fetchWordDone, fetchWordStart, currentState,
      httpErrorMessage, String.append_empty]

/-- C4 witness at status 500. -/
theorem http_error_yields_failure_witness :
    respOk 500 = false ∧
    ((fetchCycle initialStoreState (FetchResult.response 500 (Except.ok rLucid))).error
        = some (httpErrorMessage 500) ∧
      (fetchCycle initialStoreState (FetchResult.response 500 (Except.ok rLucid))).loading = false ∧
      (fetchCycle initialStoreState (FetchResult.response 500 (Except.ok rLucid))).wordData
        = initialStoreState.wordData ∧
      currentState (fetchCycle initialStoreState (FetchResult.response 500 (Except.ok rLucid)))
        = FetchState.failure (httpErrorMessage 500) ∧
      ∃ p q, httpErrorMessage 500 = p ++ toString 500 ++ q) :=
  ⟨by decide, http_error_yields_failure initialStoreState 500 (Except.ok rLucid) (by decide)⟩

/-- C5: a successful response whose body lacks the word field still ends
in Success carrying that record, and the display renders the
placeholder string for the missing word. -/
theorem missing_word_still_success (s : StoreState) (defs : List WordDefEntry)
    (exs : List WordExample) (nt : Option String) :
    currentState (fetchCycle s (FetchResult.response 200
        (Except.ok { word := none, definitions := defs, examples := exs, note := nt })))
      = FetchState.success
          { word := none, definitions := defs, examples := exs, note := nt } ∧
    displayWord { word := none, definitions := defs, examples := exs, note := nt }
      = "No word available" := by
  constructor
  · simp [fetchCycle, fetchOutcome, respOk, fetchWordDone, fetchWordStart,
      currentState]
  · rfl

/-- C6: arm issues its awaited OS calls in source order (permission
request, cancel all, schedule), leaves exactly one scheduled request,
and that request has the constant title and body and a trigger that
repeats every day at local hour 9, minute 0. -/
theorem arm_steps_in_order (w : NotifWorld) :
    (arm w).ops = w.ops ++ [NotifOp.requestPermission, NotifOp.cancelAll,
        NotifOp.schedule dailyRequest] ∧
    (arm w).scheduled = [dailyRequest] ∧
    dailyRequest.content.title = "Word of the Day 📖" ∧
    dailyRequest.content.body = "Tap to learn your new word!" ∧
    NotifTrigger.firesDailyAt dailyRequest.trigger = some (9, 0) := by
  refine ⟨?_, rfl, rfl, rfl, rfl⟩
  by_cases hg : w.granted <;>
    simp [arm, requestNotificationPermissions, scheduleDailyNotification,
      cancelScheduledNotifications, scheduleNotificationAsync, hg]

/-- C7: a denied permission only appends the warning to the log and
returns normally, the schedule is untouched by the permission step, the
whole arm still installs the daily request, and the store part of the
mount effect is the same as with permission granted. -/
theorem permission_denied_nonfatal (w : NotifWorld) (s : StoreState)
    (h : w.granted = false) :
    (requestNotificationPermissions w).log = w.log ++ [permissionWarning] ∧
    (requestNotificationPermissions w).scheduled = w.scheduled ∧
    (arm w).scheduled = [dailyRequest] ∧
    (arm w).log = w.log ++ [permissionWarning] ∧
    (homeScreenMountCombined s w).1
      = (homeScreenMountCombined s { w with granted := true }).1 := by
  refine ⟨?_, ?_, rfl, ?_, rfl⟩ <;>
    simp [requestNotificationPermissions, arm, scheduleDailyNotification,
      cancelScheduledNotifications, scheduleNotificationAsync, h]

/-- C7 witness at a concrete denied world and the held store state. -/
theorem permission_denied_nonfatal_witness :
    wDenied.granted = false ∧
    ((requestNotificationPermissions wDenied).log
        = wDenied.log ++ [permissionWarning] ∧
      (requestNotificationPermissions wDenied).scheduled = wDenied.scheduled ∧
      (arm wDenied).scheduled = [dailyRequest] ∧
      (arm wDenied).log = wDenied.log ++ [permissionWarning] ∧
      (homeScreenMountCombined sHeld wDenied).1
        = (homeScreenMountCombined sHeld { wDenied with granted := true }).1) :=
  ⟨rfl, permission_denied_nonfatal wDenied sHeld rfl⟩

/-- C8: unmounting aborts only the effect-scoped controller; the
in-flight fetch is not wired to it, so settling after the unmount writes
exactly the same store state as settling without it, namely the full
fetch-cycle result. -/
theorem unmount_does_not_cancel_fetch (s : StoreState) (res : FetchResult) :
    (unmountScreen (mountScreen s)).controller.aborted = true ∧
    (settleFetch (unmountScreen (mountScreen s)) res).store
      = (settleFetch (mountScreen s) res).store ∧
    (settleFetch (unmountScreen (mountScreen s)) res).store = fetchCycle s res :=
  ⟨rfl, rfl, rfl⟩

/-- C9: both scheduleDailyNotification variants cancel everything and
install one request with the same constant content repeating daily at
9:00, and the second variant's computed next-occurrence instant never
reaches the scheduling call: its output is independent of the current
time. -/
theorem schedule_variants_equivalent (w : NotifWorld) (day msOfDay : Nat) :
    (scheduleDailyNotification w).scheduled = [dailyRequest] ∧
    (scheduleDailyNotificationV2 day msOfDay w).scheduled = [dailyRequestV2] ∧
    dailyRequest.content = dailyRequestV2.content ∧
    NotifTrigger.firesDailyAt dailyRequest.trigger = some (9, 0) ∧
    NotifTrigger.firesDailyAt dailyRequestV2.trigger = some (9, 0) ∧
    (∀ d2 m2, scheduleDailyNotificationV2 d2 m2 w
        = scheduleDailyNotificationV2 day msOfDay w) :=
  ⟨rfl, rfl, rfl, rfl, rfl, fun _ _ => rfl⟩

/-- C10: starting a fetch clears only the error cell and raises loading;
a failing completion writes only the error message and clears loading,
so the previously held record survives the failed cycle unchanged. -/
theorem failed_fetch_preserves_record (s : StoreState) (res : FetchResult)
    (m : String) (h : fetchOutcome res = Except.error m) :
    (fetchWordStart s).wordData = s.wordData ∧
    (fetchWordStart s).error = none ∧
    (fetchWordStart s).loading = true ∧
    (fetchCycle s res).wordData = s.wordData ∧
    (fetchCycle s res).error = some m ∧
    (fetchCycle s res).loading = false := by
  refine ⟨rfl, rfl, rfl, ?_, ?_, ?_⟩ <;>
    simp [fetchCycle, h, fetchWordDone, fetchWordStart]

/-- C10 witness: a transport failure after a held Success record. -/
theorem failed_fetch_preserves_record_witness :
    fetchOutcome (FetchResult.networkFailure "Network request failed")
        = Except.error "Network request failed" ∧
    ((fetchWordStart sHeld).wordData = sHeld.wordData ∧
      (fetchWordStart sHeld).error = none ∧
      (fetchWordStart sHeld).loading = true ∧
      (fetchCycle sHeld (FetchResult.networkFailure "Network request failed")).wordData
        = sHeld.wordData ∧
      (fetchCycle sHeld (FetchResult.networkFailure "Network request failed")).error
        = some "Network request failed" ∧
      (fetchCycle sHeld (FetchResult.networkFailure "Network request failed")).loading
        = false) :=
  ⟨rfl, failed_fetch_preserves_record sHeld
    (FetchResult.networkFailure "Network request failed")
    "Network request failed" rfl⟩
